import Mathlib

/-!
Shallow embedding of the Slack_Bot repository (TypeScript) for checking its
natural-language specification.

The repository wires a Slack event listener to a LangChain agent backed by a
hosted Gemini completion endpoint, plus a handful of LangChain tools
(calculator, time, echo, email, LinkedIn) and a small RAG side-channel
(Chroma vector store).  External collaborators — the completion endpoint, the
Slack transport, nodemailer, axios/LinkedIn, the Chroma store and the
embedding service — are modelled as explicit oracle parameters; the
repository's own control flow (history pushes, the single `model.invoke`,
the try/catch boundaries, the credential checks, the splitter/search
parameters) is translated directly from the source.
-/

namespace SlackBot

/-! ## Conversation turns and the agent (src: agent file, `runAgent`)

The source keeps a module-level `history: (HumanMessage | AIMessage)[]`;
we thread that mutable array explicitly as a `List Turn`. -/

/-- Message role: `HumanMessage` or `AIMessage` in the source. -/
inductive Role where
  | human
  | assistant
deriving Repr, DecidableEq

/-- One history entry (`HumanMessage`/`AIMessage` with its text content). -/
structure Turn where
  role : Role
  content : String
deriving Repr, DecidableEq

/-- A tool-call request as it would appear on a model response
(`res.tool_calls` in LangChain); `runAgent` never inspects it. -/
structure ToolCallReq where
  toolName : String
  arguments : String
deriving Repr, DecidableEq

/-- A chat-model response: `res.content as string` plus any tool calls the
model asked for (which `runAgent` ignores). -/
structure AIMsg where
  content : String
  toolCalls : List ToolCallReq
deriving Repr, DecidableEq

/-- A tool definition: name, description (argument schemas carry no further
observable behaviour for the claims and are elided). -/
structure ToolDef where
  name : String
  description : String
deriving Repr, DecidableEq

/-- `const tools = [calculator, timeTool, echoTool]` — the registered tool
definitions. -/
def tools : List ToolDef :=
  [⟨"calculator", "Solve math expressions like 25*17 or 10/2+5"⟩,
   ⟨"time", "  Get current Date and time"⟩,
   ⟨"echo", "Repeat the given text"⟩]

/-- A chat client carries the tools bound to it; `invoke` passes them to the
completion endpoint. -/
structure ChatClient where
  boundTools : List ToolDef
deriving Repr, DecidableEq

/-- `const model = new ChatGoogleGenerativeAI(...)` — no tools bound. -/
def baseModel : ChatClient := ⟨[]⟩

/-- `const llmWithTools = model.bindTools(tools)` — tools bound, but this
client is never invoked anywhere in the source. -/
def llmWithTools : ChatClient := ⟨tools⟩

/-- The completion endpoint is an external service: an oracle mapping the
transmitted history and the transmitted tool definitions to a response. -/
def CompletionOracle := List Turn → List ToolDef → AIMsg

/-- `runAgent`, instrumented with a trace of every completion invocation it
performs (the pair actually transmitted: history snapshot and tool list).
Source:
```
history.push(new HumanMessage(text));
const res = await model.invoke(history);   // note: `model`, not llmWithTools
const reply = res.content as string;
history.push(new AIMessage(reply));
return reply;
```
Returns (new history, reply, invocation trace). -/
def runAgentTrace (complete : CompletionOracle) (history : List Turn)
    (text : String) : List Turn × String × List (List Turn × List ToolDef) :=
  let h1 := history ++ [⟨Role.human, text⟩]
  let res := complete h1 baseModel.boundTools
  (h1 ++ [⟨Role.assistant, res.content⟩], res.content, [(h1, baseModel.boundTools)])

/-- `runAgent` proper: the (history, reply) part of the traced version. -/
def runAgent (complete : CompletionOracle) (history : List Turn)
    (text : String) : List Turn × String :=
  let r := runAgentTrace complete history text
  (r.1, r.2.1)

/-- A sequence of N completed `runAgent` calls against the shared history;
returns the final history and the list of replies in call order. -/
def runAgentSeq (complete : CompletionOracle) :
    List Turn → List String → List Turn × List String
  | h, [] => (h, [])
  | h, t :: ts =>
    let step := runAgent complete h t
    let rest := runAgentSeq complete step.1 ts
    (rest.1, step.2 :: rest.2)

/-- The turn sequence a list of inputs and a matching list of replies should
leave behind: one Human turn then one Assistant turn per call. -/
def turnsOf : List String → List String → List Turn
  | t :: ts, r :: rs => ⟨Role.human, t⟩ :: ⟨Role.assistant, r⟩ :: turnsOf ts rs
  | _, _ => []

/-! ## The calculator tool (src: `calculator = tool(async ({expression}) => ...)`)

The handler is `try { return `Result: ${eval(expression)}` } catch { return
"Invalid math expression" }`.  `eval` is the JavaScript builtin; we model the
fragment it is exposed to here: arithmetic expressions over numeric literals,
`+ - * / ( )`, unary signs, and global identifiers (`NaN`, `Infinity`,
`undefined` resolve to their global values; any other identifier raises a
`ReferenceError`, which the bare `catch` turns into the error string, exactly
as a `SyntaxError` is).  Number semantics use exact rationals extended with
infinities and NaN; this agrees with IEEE doubles on every computation whose
intermediate values are exactly representable (in particular all the
integer-only inputs below). -/

/-- An exact rational as an unnormalised fraction; the invariant `0 < den`
is maintained by every constructor below.  (Exact fractions rather than
IEEE doubles: the two agree on every computation whose intermediate values
are exactly representable, which covers all inputs at issue here.) -/
structure Frac where
  num : Int
  den : Int
deriving Repr, DecidableEq

/-- Fraction addition (cross-multiplication). -/
def fadd (a b : Frac) : Frac := ⟨a.num * b.den + b.num * a.den, a.den * b.den⟩

/-- Fraction multiplication. -/
def fmul (a b : Frac) : Frac := ⟨a.num * b.num, a.den * b.den⟩

/-- Fraction negation. -/
def fneg (a : Frac) : Frac := ⟨-a.num, a.den⟩

/-- Fraction division (precondition `b.num ≠ 0`); keeps the denominator
positive. -/
def fdiv (a b : Frac) : Frac :=
  if b.num < 0 then ⟨-(a.num * b.den), a.den * (-b.num)⟩
  else ⟨a.num * b.den, a.den * b.num⟩

/-- A JavaScript number: finite value, ±Infinity, or NaN. -/
inductive JSNum where
  | fin (q : Frac)
  | inf
  | ninf
  | nan
deriving Repr, DecidableEq

/-- A value our `eval` fragment can produce: a number or `undefined`. -/
inductive JSVal where
  | num (x : JSNum)
  | undef
deriving Repr, DecidableEq

/-- ToNumber coercion as applied by the arithmetic operators
(`undefined` coerces to NaN). -/
def toNum : JSVal → JSNum
  | .num x => x
  | .undef => .nan

/-- JS unary negation on numbers. -/
def jsNeg : JSNum → JSNum
  | .fin q => .fin (fneg q)
  | .inf => .ninf
  | .ninf => .inf
  | .nan => .nan

/-- JS `+` on numbers. -/
def jsAdd : JSNum → JSNum → JSNum
  | .nan, _ => .nan
  | _, .nan => .nan
  | .fin a, .fin b => .fin (fadd a b)
  | .fin _, .inf => .inf
  | .fin _, .ninf => .ninf
  | .inf, .fin _ => .inf
  | .ninf, .fin _ => .ninf
  | .inf, .inf => .inf
  | .ninf, .ninf => .ninf
  | .inf, .ninf => .nan
  | .ninf, .inf => .nan

/-- JS binary `-` on numbers (`a - b = a + (-b)` in this fragment). -/
def jsSub (a b : JSNum) : JSNum := jsAdd a (jsNeg b)

/-- JS `*` on numbers. -/
def jsMul : JSNum → JSNum → JSNum
  | .nan, _ => .nan
  | _, .nan => .nan
  | .fin a, .fin b => .fin (fmul a b)
  | .fin a, .inf => if 0 < a.num then .inf else if a.num < 0 then .ninf else .nan
  | .fin a, .ninf => if 0 < a.num then .ninf else if a.num < 0 then .inf else .nan
  | .inf, .fin b => if 0 < b.num then .inf else if b.num < 0 then .ninf else .nan
  | .ninf, .fin b => if 0 < b.num then .ninf else if b.num < 0 then .inf else .nan
  | .inf, .inf => .inf
  | .inf, .ninf => .ninf
  | .ninf, .inf => .ninf
  | .ninf, .ninf => .inf

/-- JS `/` on numbers; division of a nonzero finite value by zero yields a
signed infinity, `0/0` yields NaN. -/
def jsDiv : JSNum → JSNum → JSNum
  | .nan, _ => .nan
  | _, .nan => .nan
  | .fin a, .fin b =>
    if b.num = 0 then
      (if 0 < a.num then .inf else if a.num < 0 then .ninf else .nan)
    else .fin (fdiv a b)
  | .fin _, .inf => .fin ⟨0, 1⟩
  | .fin _, .ninf => .fin ⟨0, 1⟩
  | .inf, .fin b => if b.num < 0 then .ninf else .inf
  | .ninf, .fin b => if b.num < 0 then .inf else .ninf
  | .inf, .inf => .nan
  | .inf, .ninf => .nan
  | .ninf, .inf => .nan
  | .ninf, .ninf => .nan

/-- Lexical tokens of the expression fragment. -/
inductive Tok where
  | num (q : Frac)
  | ident (s : String)
  | plus
  | minus
  | star
  | slash
  | lparen
  | rparen
deriving Repr, DecidableEq

/-- Decimal digit run to a natural number. -/
def digitsToNat : List Char → Nat → Nat
  | [], acc => acc
  | c :: cs, acc => digitsToNat cs (acc * 10 + (c.toNat - '0'.toNat))

/-- Numeric-literal value: integer part plus fractional digits, as the exact
fraction `(intg * 10^k + frac) / 10^k`. -/
def ratOfDigits (intg frac : List Char) : Frac :=
  let k := frac.length
  ⟨(digitsToNat intg 0 * 10 ^ k + digitsToNat frac 0 : Nat), (10 ^ k : Nat)⟩

/-- Identifier characters (after the first). -/
def isIdentChar (c : Char) : Bool := c.isAlphanum || c = '_' || c = '$'

/-- Identifier start characters. -/
def isIdentStart (c : Char) : Bool := c.isAlpha || c = '_' || c = '$'

/-- Fuel-indexed lexer; every recursive call is on a strictly shorter
suffix, so fuel `cs.length + 1` always suffices.  `none` is a
`SyntaxError`. -/
def lex : Nat → List Char → Option (List Tok)
  | _, [] => some []
  | 0, _ :: _ => none
  | fuel + 1, c :: rest =>
    if c.isWhitespace then lex fuel rest
    else if c = '+' then (lex fuel rest).map (Tok.plus :: ·)
    else if c = '-' then (lex fuel rest).map (Tok.minus :: ·)
    else if c = '*' then (lex fuel rest).map (Tok.star :: ·)
    else if c = '/' then (lex fuel rest).map (Tok.slash :: ·)
    else if c = '(' then (lex fuel rest).map (Tok.lparen :: ·)
    else if c = ')' then (lex fuel rest).map (Tok.rparen :: ·)
    else if c.isDigit ∨ (c = '.' ∧ (rest.headD ' ').isDigit) then
      let intg := (c :: rest).takeWhile Char.isDigit
      let r1 := (c :: rest).dropWhile Char.isDigit
      match r1 with
      | '.' :: r2 =>
        let frac := r2.takeWhile Char.isDigit
        let r3 := r2.dropWhile Char.isDigit
        (lex fuel r3).map (Tok.num (ratOfDigits intg frac) :: ·)
      | _ => (lex fuel r1).map (Tok.num (ratOfDigits intg []) :: ·)
    else if isIdentStart c then
      let idc := (c :: rest).takeWhile isIdentChar
      let r1 := (c :: rest).dropWhile isIdentChar
      (lex fuel r1).map (Tok.ident (String.mk idc) :: ·)
    else none

/-- Global bindings visible to `eval` in this fragment; any other
identifier raises a `ReferenceError` (→ `none`). -/
def lookupGlobal : String → Option JSVal
  | "NaN" => some (JSVal.num JSNum.nan)
  | "Infinity" => some (JSVal.num JSNum.inf)
  | "undefined" => some JSVal.undef
  | _ => none

mutual

/-- Primary: numeric literal, identifier, or parenthesised expression. -/
def parsePrimary : Nat → List Tok → Option (JSVal × List Tok)
  | 0, _ => none
  | fuel + 1, toks =>
    match toks with
    | Tok.num q :: rest => some (JSVal.num (JSNum.fin q), rest)
    | Tok.ident s :: rest => (lookupGlobal s).map (fun v => (v, rest))
    | Tok.lparen :: rest =>
      match parseExpr fuel rest with
      | some (v, Tok.rparen :: r2) => some (v, r2)
      | _ => none
    | _ => none

/-- Unary: chains of prefix `+`/`-` over a primary. -/
def parseUnary : Nat → List Tok → Option (JSVal × List Tok)
  | 0, _ => none
  | fuel + 1, toks =>
    match toks with
    | Tok.minus :: rest =>
      (parseUnary fuel rest).map (fun p => (JSVal.num (jsNeg (toNum p.1)), p.2))
    | Tok.plus :: rest =>
      (parseUnary fuel rest).map (fun p => (JSVal.num (toNum p.1), p.2))
    | _ => parsePrimary fuel toks

/-- Term: left-associative `*` and `/` over unaries. -/
def parseTerm : Nat → List Tok → Option (JSVal × List Tok)
  | 0, _ => none
  | fuel + 1, toks =>
    match parseUnary fuel toks with
    | some (v, rest) => parseTermLoop fuel v rest
    | none => none

/-- Continuation of a term. -/
def parseTermLoop : Nat → JSVal → List Tok → Option (JSVal × List Tok)
  | 0, _, _ => none
  | fuel + 1, acc, toks =>
    match toks with
    | Tok.star :: rest =>
      match parseUnary fuel rest with
      | some (v, r2) =>
        parseTermLoop fuel (JSVal.num (jsMul (toNum acc) (toNum v))) r2
      | none => none
    | Tok.slash :: rest =>
      match parseUnary fuel rest with
      | some (v, r2) =>
        parseTermLoop fuel (JSVal.num (jsDiv (toNum acc) (toNum v))) r2
      | none => none
    | _ => some (acc, toks)

/-- Expression: left-associative `+` and `-` over terms. -/
def parseExpr : Nat → List Tok → Option (JSVal × List Tok)
  | 0, _ => none
  | fuel + 1, toks =>
    match parseTerm fuel toks with
    | some (v, rest) => parseExprLoop fuel v rest
    | none => none

/-- Continuation of an expression. -/
def parseExprLoop : Nat → JSVal → List Tok → Option (JSVal × List Tok)
  | 0, _, _ => none
  | fuel + 1, acc, toks =>
    match toks with
    | Tok.plus :: rest =>
      match parseTerm fuel rest with
      | some (v, r2) =>
        parseExprLoop fuel (JSVal.num (jsAdd (toNum acc) (toNum v))) r2
      | none => none
    | Tok.minus :: rest =>
      match parseTerm fuel rest with
      | some (v, r2) =>
        parseExprLoop fuel (JSVal.num (jsSub (toNum acc) (toNum v))) r2
      | none => none
    | _ => some (acc, toks)

end

/-- `eval` on the arithmetic fragment: lex, parse the whole token stream,
produce the resulting value; `none` models a thrown `SyntaxError` or
`ReferenceError` (an empty program evaluates to `undefined`).  The parse
fuel `4 * toks.length + 8` exceeds the maximal call depth, which consumes at
least one token every four nested calls. -/
def evalJS (s : String) : Option JSVal :=
  match lex (s.toList.length + 1) s.toList with
  | none => none
  | some [] => some JSVal.undef
  | some toks =>
    match parseExpr (4 * toks.length + 8) toks with
    | some (v, []) => some v
    | _ => none

/-- Decimal digits of a natural number (fuel-indexed long division). -/
def natDigits : Nat → Nat → List Char
  | 0, _ => []
  | fuel + 1, n =>
    if n < 10 then [Char.ofNat ('0'.toNat + n)]
    else natDigits fuel (n / 10) ++ [Char.ofNat ('0'.toNat + n % 10)]

/-- Decimal rendering of a natural number. -/
def renderNat (n : Nat) : String := String.mk (natDigits (n + 1) n)

/-- Decimal expansion of `rem / den` (with `rem < den`), up to 17 digits
(exact whenever the expansion terminates, as it does for every double-exact
value). -/
def renderFracDigits : Nat → Nat → Nat → List Char
  | 0, _, _ => []
  | fuel + 1, rem, den =>
    if rem = 0 then []
    else
      Char.ofNat ('0'.toNat + rem * 10 / den) ::
        renderFracDigits fuel (rem * 10 % den) den

/-- Template-literal rendering of a nonnegative finite number. -/
def renderNonneg (q : Frac) : String :=
  let n := q.num.toNat
  let d := q.den.toNat
  if n % d = 0 then renderNat (n / d)
  else renderNat (n / d) ++ "." ++ String.mk (renderFracDigits 17 (n % d) d)

/-- Template-literal rendering of a JS number (`${result}`). -/
def renderJSNum : JSNum → String
  | .inf => "Infinity"
  | .ninf => "-Infinity"
  | .nan => "NaN"
  | .fin q =>
    if q.num < 0 then "-" ++ renderNonneg ⟨-q.num, q.den⟩ else renderNonneg q

/-- Template-literal rendering of a JS value. -/
def renderJSVal : JSVal → String
  | .num x => renderJSNum x
  | .undef => "undefined"

/-- The calculator tool handler:
`try { return `Result: ${eval(expression)}` } catch { return "Invalid math
expression" }` — total by construction, exactly as the `try/catch` makes the
source handler. -/
def calculator (expression : String) : String :=
  match evalJS expression with
  | some v => "Result: " ++ renderJSVal v
  | none => "Invalid math expression"

/-! ## Slack inbound adapters (src/slack.ts)

Both handlers are async callbacks with no `try`/`catch`; a rejected
`runAgent` promise therefore rejects the handler itself.  We embed the
handlers as `Except`-valued functions over an agent oracle
`List Turn → String → Except JsError (List Turn × String)` abstracting
`await runAgent(text)` (which may reject, e.g. on a completion-transport
failure); on success it yields the updated shared history and the reply.
The result carries the final history and the list of `say` payloads sent. -/

/-- A thrown JavaScript error (tracked by its message). -/
structure JsError where
  message : String
deriving Repr, DecidableEq

/-- A Slack message event as the handler sees it: `(event as any).text`
may be `undefined` (`none`) or any string. -/
structure MsgEvent where
  text : Option String
deriving Repr, DecidableEq

/-- The `app_mention` handler:
`app.event("app_mention", async ({event, say}) => { const reply = await
runAgent(event.text); await say(reply); })`. -/
def appMentionHandler
    (agent : List Turn → String → Except JsError (List Turn × String))
    (h : List Turn) (text : String) : Except JsError (List Turn × List String) :=
  match agent h text with
  | .ok r => .ok (r.1, [r.2])
  | .error e => .error e

/-- The `message` handler:
`const text = (event as any).text; if (!text) return; const reply = await
runAgent(text); await say(reply);` — `!text` is true for `undefined` and
for the empty string. -/
def messageHandler
    (agent : List Turn → String → Except JsError (List Turn × String))
    (h : List Turn) (ev : MsgEvent) : Except JsError (List Turn × List String) :=
  match ev.text with
  | none => .ok (h, [])
  | some t =>
    if t.isEmpty then .ok (h, [])
    else
      match agent h t with
      | .ok r => .ok (r.1, [r.2])
      | .error e => .error e

/-! ## Credential-requiring tools (src/rag.ts: email and LinkedIn sections)

Process configuration read via `process.env`. -/

/-- The environment variables the tools read. -/
structure Env where
  emailUser : Option String
  emailPass : Option String
  linkedinAccessToken : Option String
  linkedinPersonId : Option String
deriving Repr, DecidableEq

/-- Options handed to `transporter.sendMail`. -/
structure MailOptions where
  fromAddr : Option String
  toAddr : String
  subject : String
  text : String
  cc : Option String
  bcc : Option String
deriving Repr, DecidableEq

/-- The `send_email` tool handler (`emailToolkit`).  The nodemailer
transport is an external collaborator, passed as an oracle that either
succeeds or throws; the handler catches every throw and converts it to the
error text, so the function is total:
```
try { ... await transporter.sendMail(mailOptions);
      return `✅ Email successfully sent to ...`; }
catch (error) { return `❌ Failed to send email: ${error.message}`; }
``` -/
def emailToolkit (env : Env) (sendMail : MailOptions → Except JsError Unit)
    (toAddr subject message : String) (cc bcc : Option String) : String :=
  match sendMail ⟨env.emailUser, toAddr, subject, message, cc, bcc⟩ with
  | .ok _ =>
    "✅ Email successfully sent to " ++ toAddr ++
      (match cc with
       | some c => " (CC: " ++ c ++ ")"
       | none => "") ++
      (match bcc with
       | some b => " (BCC: " ++ b ++ ")"
       | none => "")
  | .error e => "❌ Failed to send email: " ++ e.message

/-- The LinkedIn UGC-post network response (`response.data.id`). -/
structure AxiosResponse where
  status : Nat
  dataId : String
deriving Repr, DecidableEq

/-- `postToLinkedIn` (the exported function in the LinkedIn section of
src/rag.ts): checks both credentials first and throws a named error when
either is missing, before any network traffic; the axios call is an
external oracle from (text, visibility) to a response or a thrown error
(re-thrown with a wrapping message, as in the `catch` block). -/
def postToLinkedIn (env : Env)
    (axiosPost : String → String → Except JsError AxiosResponse)
    (text visibility : String) : Except JsError String :=
  match env.linkedinAccessToken with
  | none => .error ⟨"LINKEDIN_ACCESS_TOKEN environment variable is not set"⟩
  | some _ =>
    match env.linkedinPersonId with
    | none => .error ⟨"LINKEDIN_PERSON_ID environment variable is not set"⟩
    | some _ =>
      match axiosPost text visibility with
      | .ok resp =>
        .ok ("✅ LinkedIn post published successfully! Post ID: " ++
          resp.dataId ++ "\nView it at: https://www.linkedin.com/feed/update/" ++
          resp.dataId)
      | .error e => .error ⟨"Failed to post to LinkedIn: " ++ e.message⟩

/-- The `post_to_linkedin` tool handler (`postToLinkedInTool`): calls
`postToLinkedIn` inside `try`/`catch` and converts any throw into the
error text, so the function is total. -/
def postToLinkedInTool (env : Env)
    (axiosPost : String → String → Except JsError AxiosResponse)
    (text visibility : String) : String :=
  match postToLinkedIn env axiosPost text visibility with
  | .ok r => r
  | .error e => "❌ Failed to post to LinkedIn: " ++ e.message

/-! ## Document indexing and search (src/rag.ts, top section)

`loadDocument` reads a file, splits it with
`RecursiveCharacterTextSplitter({ chunkSize: 500, chunkOverlap: 100 })` and
builds the Chroma store from the chunks; `searchDocs` runs
`vectorStore.similaritySearch(query, 3)` and joins the page contents with
`"\n\n"`.  The splitter is an external library; we model it as fixed-stride
character windows realising exactly the configured target size 500 and
overlap 100 (stride `500 - 100 = 400`).  The Chroma store is opaque: a bag
of upserted documents plus an oracle `query` for similarity search. -/

/-- A stored chunk (`pageContent`). -/
structure Doc where
  pageContent : String
deriving Repr, DecidableEq

/-- Window splitting with chunk size 500 and overlap 100: emit the first
500 characters, step forward by `500 - 100 = 400`, repeat. -/
def splitChunks (cs : List Char) : List (List Char) :=
  if _h : cs.length ≤ 500 then [cs]
  else cs.take 500 :: splitChunks (cs.drop 400)
termination_by cs.length
decreasing_by simp; omega

/-- `splitter.createDocuments([text])`. -/
def createDocuments (text : String) : List Doc :=
  (splitChunks text.toList).map (fun c => ⟨String.mk c⟩)

/-- The Chroma vector store: the upserted documents plus an opaque
similarity-search oracle (`similaritySearch query k`). -/
structure VectorStore where
  docs : List Doc
  query : String → Nat → List Doc

/-- `loadDocument`: split the file text and build the store from exactly
those chunks, overwriting the module-level `vectorStore` binding
(`fromDocuments` is the external `Chroma.fromDocuments`). -/
def loadDocument (fromDocuments : List Doc → VectorStore)
    (fileText : String) (_oldStore : Option VectorStore) : Option VectorStore :=
  some (fromDocuments (createDocuments fileText))

/-- `searchDocs`: `vectorStore.similaritySearch(query, 3)` then
`results.map(r => r.pageContent).join("\n\n")`.  Before any `loadDocument`
the module-level `let vectorStore: Chroma;` is `undefined`, and the member
access throws a `TypeError`. -/
def searchDocs (vectorStore : Option VectorStore) (query : String) :
    Except JsError String :=
  match vectorStore with
  | none =>
    .error ⟨"TypeError: Cannot read properties of undefined (reading similaritySearch)"⟩
  | some vs =>
    .ok (String.intercalate "\n\n" ((vs.query query 3).map Doc.pageContent))

end SlackBot

namespace SlackBot

example : calculator "10/2+5" = "Result: 10" := by decide
example : calculator "(1+2)*-3" = "Result: -9" := by decide
example : calculator "someUnknownName" = "Invalid math expression" := by decide
example : calculator "1.5*2" = "Result: 3" := by decide
example : calculator "0/0" = "Result: NaN" := by decide
example : calculator "3/4" = "Result: 0.75" := by decide

theorem runAgent_eq (complete : CompletionOracle) (h : List Turn) (t : String) :
    runAgent complete h t =
      (h ++ [⟨Role.human, t⟩] ++
        [⟨Role.assistant, (complete (h ++ [⟨Role.human, t⟩]) []).content⟩],
       (complete (h ++ [⟨Role.human, t⟩]) []).content) := by
  simp [runAgent, runAgentTrace, baseModel]

theorem runAgentSeq_spec (complete : CompletionOracle) (ts : List String) :
    ∀ h : List Turn,
      (runAgentSeq complete h ts).1 =
        h ++ turnsOf ts (runAgentSeq complete h ts).2 ∧
      (runAgentSeq complete h ts).2.length = ts.length := by
  induction ts with
  | nil => intro h; simp [runAgentSeq, turnsOf]
  | cons t ts ih =>
    intro h
    have hstep := runAgent_eq complete h t
    obtain ⟨ih1, ih2⟩ := ih (runAgent complete h t).1
    constructor
    · show (runAgentSeq complete (runAgent complete h t).1 ts).1 = _
      rw [ih1, hstep]
      rcases hrest : (runAgentSeq complete (runAgent complete h t).1 ts) with ⟨hh, rs⟩
      simp only [runAgentSeq, hstep, hrest]
      simp [turnsOf]
    · show ((runAgentSeq complete (runAgent complete h t).1 ts).2.length + 1 = _)
      simp [ih2]

theorem splitChunks_length_le (cs : List Char) :
    ∀ c ∈ splitChunks cs, c.length ≤ 500 := by
  induction cs using splitChunks.induct with
  | case1 cs h =>
    intro c hc
    unfold splitChunks at hc
    rw [dif_pos h] at hc
    simp only [List.mem_singleton] at hc
    subst hc
    exact h
  | case2 cs h ih =>
    intro c hc
    unfold splitChunks at hc
    rw [dif_neg h] at hc
    rcases List.mem_cons.mp hc with rfl | hc
    · simp
    · exact ih c hc

theorem splitChunks_head_take (ds b : List Char)
    (hb : (splitChunks ds).head? = some b) : b.take 100 = ds.take 100 := by
  unfold splitChunks at hb
  by_cases h : ds.length ≤ 500
  · rw [dif_pos h] at hb
    simp only [List.head?_cons, Option.some.injEq] at hb
    subst hb
    rfl
  · rw [dif_neg h] at hb
    simp only [List.head?_cons, Option.some.injEq] at hb
    subst hb
    simp [List.take_take]

theorem splitChunks_chain (cs : List Char) :
    List.Chain' (fun a b => b.take 100 = a.drop 400) (splitChunks cs) := by
  induction cs using splitChunks.induct with
  | case1 cs h =>
    unfold splitChunks
    rw [dif_pos h]
    exact List.chain'_singleton _
  | case2 cs h ih =>
    unfold splitChunks
    rw [dif_neg h]
    refine List.chain'_cons'.mpr ⟨?_, ih⟩
    intro b hb
    rw [splitChunks_head_take _ _ hb, List.drop_take]

/-- C1: every sequence of N completed `runAgent(text)` calls leaves the
shared history holding exactly, and in arrival order, one Human turn with
each call's input followed by one Assistant turn with that call's returned
text, appended after the pre-existing turns, which are never modified or
removed; in particular a single call against the empty history yields
exactly the Human turn and the Assistant turn with content preserved. -/
theorem history_appendOnly_roundTrip (complete : CompletionOracle)
    (h0 : List Turn) (ts : List String) :
    (runAgentSeq complete h0 ts).1 =
        h0 ++ turnsOf ts (runAgentSeq complete h0 ts).2 ∧
      (runAgentSeq complete h0 ts).2.length = ts.length ∧
      ∀ t : String,
        (runAgent complete [] t).1 =
          [⟨Role.human, t⟩, ⟨Role.assistant, (runAgent complete [] t).2⟩] := by
  obtain ⟨hh, hl⟩ := runAgentSeq_spec complete ts h0
  refine ⟨hh, hl, ?_⟩
  intro t
  rw [runAgent_eq]
  simp

/-- C2 (evaluation of the code at the failing point): the completion
invocation inside `runAgent` transmits the full history including the new
Human turn, but the tool list it transmits is that of the un-bound
`baseModel`, i.e. empty — not the three registered tool definitions, which
are bound only to the never-invoked `llmWithTools`. -/
theorem runAgent_ask_omits_tools :
    baseModel.boundTools = [] ∧
      llmWithTools.boundTools.map ToolDef.name = ["calculator", "time", "echo"] ∧
      ∀ (complete : CompletionOracle) (h : List Turn) (t : String),
        (runAgentTrace complete h t).2.2 =
          [(h ++ [⟨Role.human, t⟩], ([] : List ToolDef))] := by
  refine ⟨rfl, by decide, ?_⟩
  intro complete h t
  simp [runAgentTrace, baseModel]

/-- C3 counterexample: against a model that always returns a
`ToolCallRequest`, `runAgent` performs exactly one completion round-trip —
not the claimed configured bound of 5 — and returns the response content as
an ordinary reply rather than terminating at a
`MaxIterationsExceededError`. -/
theorem turnLoop_iterationBound_counterexample :
    (runAgentTrace (fun _ _ => ⟨"model output", [⟨"calculator", "25*17"⟩]⟩)
          [] "hi").2.2.length = 1 ∧
      (1 : Nat) ≠ 5 ∧
      (runAgentTrace (fun _ _ => ⟨"model output", [⟨"calculator", "25*17"⟩]⟩)
          [] "hi").2.1 = "model output" := by
  refine ⟨rfl, by decide, rfl⟩

/-- C3 amended: the code has no Ask–Execute loop at all: each request
performs exactly one completion round-trip and returns the response content
(so every request terminates trivially), and no iteration bound or
`MaxIterationsExceededError` exists — even when the model response carries
tool-call requests. -/
theorem runAgent_single_roundTrip (complete : CompletionOracle)
    (h : List Turn) (t : String) :
    (runAgentTrace complete h t).2.2.length = 1 ∧
      (runAgentTrace complete h t).2.1 =
        (complete (h ++ [⟨Role.human, t⟩]) []).content := by
  constructor
  · rfl
  · simp [runAgentTrace, baseModel]

/-- C4: `calculator "25*17" = "Result: 425"`; `calculator "10/0"` is an
infinity result or the invalid-expression text; `calculator "2+"` is the
invalid-expression text; and on every input the tool returns a text result
(the `try`/`catch` makes the handler total — nothing escapes the tool
boundary). -/
theorem calculator_cases :
    calculator "25*17" = "Result: 425" ∧
      (calculator "10/0" = "Result: Infinity" ∨
        calculator "10/0" = "Invalid math expression") ∧
      calculator "2+" = "Invalid math expression" ∧
      ∀ s : String, calculator s = "Invalid math expression" ∨
        ∃ v : JSVal, calculator s = "Result: " ++ renderJSVal v := by
  refine ⟨by decide, Or.inl (by decide), by decide, ?_⟩
  intro s
  unfold calculator
  cases hv : evalJS s with
  | none => exact Or.inl rfl
  | some v => exact Or.inr ⟨v, rfl⟩

/-- C5 (evaluation of the code at the failing inputs): the calculator hands
its input to the JavaScript `eval` builtin, which resolves identifiers
rather than rejecting them — the identifier inputs `"NaN"` and
`"Infinity"` are evaluated to their global values and reported as results,
not rejected as `"Invalid math expression"`. -/
theorem calculator_executes_identifiers :
    calculator "NaN" = "Result: NaN" ∧
      calculator "Infinity" = "Result: Infinity" := by
  exact ⟨by decide, by decide⟩

/-- C6 counterexample: with an agent oracle that fails (a rejected
`runAgent` promise), both Slack event handlers propagate the error out of
the handler — the result is the error itself, and no `say` reply is
produced — instead of catching it and degrading to a visible reply. -/
theorem slackHandlers_catch_counterexample :
    messageHandler (fun _ _ => .error ⟨"completion transport failure"⟩) []
        ⟨some "hello"⟩ = .error ⟨"completion transport failure"⟩ ∧
      appMentionHandler (fun _ _ => .error ⟨"completion transport failure"⟩) []
        "hello" = .error ⟨"completion transport failure"⟩ := by
  exact ⟨rfl, rfl⟩

/-- C6 amended: neither Slack event handler has a catch: whenever the
`runAgent` call fails with an error, that error propagates out of the event
handler as the handler's own failure and no reply is sent on the
channel. -/
theorem slackHandlers_propagate_agent_errors
    (agent : List Turn → String → Except JsError (List Turn × String))
    (h : List Turn) (t : String) (e : JsError)
    (hfail : agent h t = .error e) (hne : t.isEmpty = false) :
    messageHandler agent h ⟨some t⟩ = .error e ∧
      appMentionHandler agent h t = .error e := by
  constructor
  · simp [messageHandler, hne, hfail]
  · simp [appMentionHandler, hfail]

theorem slackHandlers_propagate_agent_errors_witness :
    messageHandler (fun _ _ => .error ⟨"boom"⟩) [] ⟨some "hi"⟩ =
        .error ⟨"boom"⟩ ∧
      appMentionHandler (fun _ _ => .error ⟨"boom"⟩) [] "hi" =
        .error ⟨"boom"⟩ :=
  slackHandlers_propagate_agent_errors (fun _ _ => .error ⟨"boom"⟩) [] "hi"
    ⟨"boom"⟩ rfl rfl

/-- C7: a credential-requiring tool invocation with the credential missing
returns a descriptive error text and does not throw past the tool boundary:
`send_email` converts any transport failure (such as the missing
`EMAIL_USER` credentials) into its error text, and `post_to_linkedin`
returns the exact text naming the missing `LINKEDIN_ACCESS_TOKEN` or
`LINKEDIN_PERSON_ID` variable; all three handlers are total functions into
`String`. -/
theorem credentialMissing_tools_return_error_text :
    (∀ (env : Env) (sendMail : MailOptions → Except JsError Unit)
        (toAddr subject message : String) (cc bcc : Option String)
        (e : JsError),
      sendMail ⟨env.emailUser, toAddr, subject, message, cc, bcc⟩ = .error e →
        emailToolkit env sendMail toAddr subject message cc bcc =
          "❌ Failed to send email: " ++ e.message) ∧
    (∀ (env : Env) (axiosPost : String → String → Except JsError AxiosResponse)
        (text visibility : String),
      env.linkedinAccessToken = none →
        postToLinkedInTool env axiosPost text visibility =
          "❌ Failed to post to LinkedIn: LINKEDIN_ACCESS_TOKEN environment variable is not set") ∧
    (∀ (env : Env) (axiosPost : String → String → Except JsError AxiosResponse)
        (text visibility tok : String),
      env.linkedinAccessToken = some tok → env.linkedinPersonId = none →
        postToLinkedInTool env axiosPost text visibility =
          "❌ Failed to post to LinkedIn: LINKEDIN_PERSON_ID environment variable is not set") := by
  refine ⟨?_, ?_, ?_⟩
  · intro env sendMail toAddr subject message cc bcc e hfail
    simp [emailToolkit, hfail]
  · intro env axiosPost text visibility htok
    simp [postToLinkedInTool, postToLinkedIn, htok]
  · intro env axiosPost text visibility tok htok hpid
    simp [postToLinkedInTool, postToLinkedIn, htok, hpid]

theorem credentialMissing_tools_return_error_text_witness :
    emailToolkit ⟨none, none, none, none⟩
        (fun _ => .error ⟨"Missing credentials for PLAIN"⟩)
        "a@b.c" "Hello" "Body" none none =
      "❌ Failed to send email: Missing credentials for PLAIN" ∧
    postToLinkedInTool ⟨none, none, none, none⟩
        (fun _ _ => .ok ⟨201, "urn:li:share:1"⟩) "post text" "PUBLIC" =
      "❌ Failed to post to LinkedIn: LINKEDIN_ACCESS_TOKEN environment variable is not set" ∧
    postToLinkedInTool ⟨none, none, some "tok", none⟩
        (fun _ _ => .ok ⟨201, "urn:li:share:1"⟩) "post text" "PUBLIC" =
      "❌ Failed to post to LinkedIn: LINKEDIN_PERSON_ID environment variable is not set" :=
  ⟨credentialMissing_tools_return_error_text.1 ⟨none, none, none, none⟩
      (fun _ => .error ⟨"Missing credentials for PLAIN"⟩)
      "a@b.c" "Hello" "Body" none none ⟨"Missing credentials for PLAIN"⟩ rfl,
   credentialMissing_tools_return_error_text.2.1 ⟨none, none, none, none⟩
      (fun _ _ => .ok ⟨201, "urn:li:share:1"⟩) "post text" "PUBLIC" rfl,
   credentialMissing_tools_return_error_text.2.2 ⟨none, none, some "tok", none⟩
      (fun _ _ => .ok ⟨201, "urn:li:share:1"⟩) "post text" "PUBLIC" "tok" rfl rfl⟩

/-- C8: `loadDocument` builds the vector store from exactly the chunks of
the file text produced at target chunk size 500 with 100-unit overlap —
every chunk has at most 500 characters and each chunk agrees with its
successor on the 100-character overlap window — and `searchDocs` requests
exactly the top-3 most similar chunks and returns their contents joined
into one text. -/
theorem loadDocument_searchDocs_spec
    (fromDocuments : List Doc → VectorStore) (fileText : String)
    (old : Option VectorStore) :
    loadDocument fromDocuments fileText old =
        some (fromDocuments
          ((splitChunks fileText.toList).map (fun c => ⟨String.mk c⟩))) ∧
      (∀ c ∈ splitChunks fileText.toList, c.length ≤ 500) ∧
      List.Chain' (fun a b => b.take 100 = a.drop 400)
        (splitChunks fileText.toList) ∧
      ∀ (vs : VectorStore) (q : String),
        searchDocs (some vs) q =
          .ok (String.intercalate "\n\n" ((vs.query q 3).map Doc.pageContent)) := by
  refine ⟨rfl, splitChunks_length_le _, splitChunks_chain _, ?_⟩
  intro vs q
  rfl

theorem loadDocument_searchDocs_spec_witness :
    "hello".toList.length ≤ 500 ∧
      searchDocs (some ⟨[⟨"alpha"⟩], fun _ _ => [⟨"alpha"⟩, ⟨"beta"⟩]⟩) "q" =
        .ok "alpha\n\nbeta" := by
  have h := loadDocument_searchDocs_spec (fun ds => ⟨ds, fun _ _ => ds⟩)
    "hello" none
  constructor
  · refine h.2.1 "hello".toList ?_
    unfold splitChunks
    rw [dif_pos (by decide)]
    exact List.mem_singleton.mpr rfl
  · have h2 := (loadDocument_searchDocs_spec (fun ds => ⟨ds, fun _ _ => ds⟩)
      "hello" none).2.2.2 ⟨[⟨"alpha"⟩], fun _ _ => [⟨"alpha"⟩, ⟨"beta"⟩]⟩ "q"
    rw [h2]
    rfl

/-- C9: a Slack message event whose `text` field is absent or empty makes
the message handler return before calling the agent (the result is the same
for every agent oracle): no reply is sent and the shared history is
returned unchanged. -/
theorem messageHandler_missing_text_noop
    (agent : List Turn → String → Except JsError (List Turn × String))
    (h : List Turn) (ev : MsgEvent)
    (hempty : ev.text = none ∨ ev.text = some "") :
    messageHandler agent h ev = .ok (h, []) := by
  unfold messageHandler
  rcases hempty with h1 | h1
  · rw [h1]
  · rw [h1]
    rfl

theorem messageHandler_missing_text_noop_witness :
    messageHandler (fun _ _ => .error ⟨"agent must not be called"⟩)
        [⟨Role.human, "earlier"⟩] ⟨none⟩ =
        .ok ([⟨Role.human, "earlier"⟩], []) ∧
      messageHandler (fun _ _ => .error ⟨"agent must not be called"⟩) []
        ⟨some ""⟩ = .ok ([], []) :=
  ⟨messageHandler_missing_text_noop _ _ _ (Or.inl rfl),
   messageHandler_missing_text_noop _ _ _ (Or.inr rfl)⟩

/-- C10: calling `searchDocs` before any successful `loadDocument` finds the
module-level `vectorStore` still `undefined`, and the member access throws a
`TypeError` for every query — the call fails rather than returning any
(empty) result. -/
theorem searchDocs_before_load_errors (q : String) :
    searchDocs none q =
      .error ⟨"TypeError: Cannot read properties of undefined (reading similaritySearch)"⟩ :=
  rfl

end SlackBot
